import Mathlib

/-
  Verification of the routing-and-buffering core of the doctor/patient
  conversation app: a shallow embedding of
  `backend/models.py` (smart_join, BoxBuffers) and
  `backend/langchain_router.py` (LangChainRouter), with theorems about the
  routing, buffering, speaker-resolution and reset behaviour.

  Python strings are modelled as `List Char` (a sequence of Unicode code
  points); Python `None` for optional values as `Option _`; the
  insertion-ordered dicts (`speaker_registry`, `partial_buffer`) as
  association lists.
-/

abbrev Str := List Char

/-- Characters the code treats as explicit spacing at a join boundary
(`' '`, `'\n'`, `'\t'` in `smart_join`). -/
def isSpaceChar (c : Char) : Bool :=
  c = ' ' || c = '\n' || c = '\t'

/-- The clause/sentence punctuation set of `smart_join`
(`'.', ',', '!', '?', ';', ':'`). -/
def isPunctChar (c : Char) : Bool :=
  c = '.' || c = ',' || c = '!' || c = '?' || c = ';' || c = ':'

/-- Sentence-terminal punctuation (`'.!?'` membership tests in the code). -/
def isSentenceEnd (c : Char) : Bool :=
  c = '.' || c = '!' || c = '?'

/-- Whitespace as stripped by Python `str.rstrip()`. -/
def pyWhitespace (c : Char) : Bool :=
  c = ' ' || c = '\n' || c = '\t' || c = '\r' || c = '\x0b' || c = '\x0c'

/-- Python `str.rstrip()`: drop trailing whitespace. -/
def rstrip (s : Str) : Str :=
  (s.reverse.dropWhile pyWhitespace).reverse

/-- Embedding of `is_indic_char` from `models.py`. The source asks whether
the character's `unicodedata.name` mentions one of eight Indic scripts
(TELUGU, DEVANAGARI, TAMIL, KANNADA, MALAYALAM, BENGALI, GURMUKHI, ORIYA);
that name test is modelled here by the Unicode block ranges of these eight
scripts, which is where such names occur. -/
def is_indic_char (ch : Char) : Bool :=
  let n := ch.toNat
  (0x0900 ≤ n && n ≤ 0x097F) ||  -- Devanagari
  (0x0980 ≤ n && n ≤ 0x09FF) ||  -- Bengali
  (0x0A00 ≤ n && n ≤ 0x0A7F) ||  -- Gurmukhi
  (0x0B00 ≤ n && n ≤ 0x0B7F) ||  -- Oriya
  (0x0B80 ≤ n && n ≤ 0x0BFF) ||  -- Tamil
  (0x0C00 ≤ n && n ≤ 0x0C7F) ||  -- Telugu
  (0x0C80 ≤ n && n ≤ 0x0CFF) ||  -- Kannada
  (0x0D00 ≤ n && n ≤ 0x0D7F)     -- Malayalam

/-- Python `str.isalnum()` at a join boundary, modelled for the Latin-script
text the alnum branch of `smart_join` is about (Indic characters are caught
by the earlier `is_indic_char` branch and never reach it). -/
def pyIsAlnum (c : Char) : Bool :=
  c.isAlpha || c.isDigit

/-- Python `str.lower()`, character-wise (the continuation list it is
compared against is all-ASCII). -/
def toLowerStr (s : Str) : Str :=
  s.map Char.toLower

/-- The short-continuation list of `smart_join`
(`['a','e','i','o','u','ed','er','es','en','ly','ing','s','d','t','n','g']`). -/
def continuationList : List Str :=
  ["a", "e", "i", "o", "u", "ed", "er", "es", "en", "ly",
   "ing", "s", "d", "t", "n", "g"].map String.toList

/-- Embedding of `smart_join(existing, new)` from `models.py`. -/
def smart_join (existing news : Str) : Str :=
  if existing = [] then news
  else if news = [] then existing
  else
    let last_char := existing.getLastD ' '
    let first_char := news.headD ' '
    if isSpaceChar first_char then existing ++ news
    else if is_indic_char last_char || is_indic_char first_char then existing ++ news
    else if isSpaceChar last_char then existing ++ news
    else if isPunctChar first_char then existing ++ news
    else if isPunctChar last_char then existing ++ [' '] ++ news
    else if pyIsAlnum last_char && pyIsAlnum first_char then
      if news.length ≤ 2 && continuationList.contains (toLowerStr news) then
        existing ++ news
      else existing ++ [' '] ++ news
    else existing ++ news

theorem smart_join_word_spacing :
    smart_join "Hello".toList "world.".toList = "Hello world.".toList := by decide

theorem smart_join_short_continuation :
    smart_join "Great".toList "er".toList = "Greater".toList := by decide

theorem smart_join_punctuation :
    smart_join "end".toList "?".toList = "end?".toList := by decide

/-- One raw entry of a view's export log (`ConversationEntry` /
the dicts appended to `BoxBuffers.entries` in `models.py`). -/
structure ConversationEntry where
  timestamp : Str
  speaker : Str
  text : Str
  language : Str
  translation_status : Str
deriving DecidableEq, Repr

/-- Embedding of `BoxBuffers` from `models.py`: the three display boxes,
their per-box sentence buffers and current speakers, and the shared export
log. The `_last_*_speaker` attributes of the source are written in
`__init__`/`reset` but never read anywhere, so they are not modelled. -/
structure BoxBuffers where
  original : Str
  doctor : Str
  patient : Str
  original_sentence_buffer : Str
  doctor_sentence_buffer : Str
  patient_sentence_buffer : Str
  original_current_speaker : Option Str
  doctor_current_speaker : Option Str
  patient_current_speaker : Option Str
  entries : List ConversationEntry
deriving DecidableEq, Repr

/-- `BoxBuffers.__init__`: everything empty. -/
def initBoxBuffers : BoxBuffers :=
  ⟨[], [], [], [], [], [], none, none, none, []⟩

/-- Python truthiness of an optional string (`None` and `""` are falsy). -/
def optTruthy (s : Option Str) : Bool :=
  match s with
  | none => false
  | some t => t ≠ []

/-- The finalized display line `"[speaker]: buffer\n"` the boxes append. -/
def tagLine (speaker buf : Str) : Str :=
  ['['] ++ speaker ++ [']', ':', ' '] ++ buf ++ ['\n']

/-- Embedding of `BoxBuffers.add_to_original`. The `language` parameter of
the source is accepted (default `None`) but never used by the method. -/
def add_to_original (b : BoxBuffers) (speaker text timestamp : Str)
    (language : Option Str) : BoxBuffers :=
  if text = [] ∨ speaker = [] then b
  else
    let b1 :=
      if some speaker ≠ b.original_current_speaker then
        let b0 :=
          if b.original_sentence_buffer ≠ [] ∧ optTruthy b.original_current_speaker then
            { b with
              original := b.original ++
                tagLine (b.original_current_speaker.getD []) b.original_sentence_buffer,
              original_sentence_buffer := [] }
          else b
        { b0 with original_current_speaker := some speaker }
      else b
    let buf := smart_join b1.original_sentence_buffer text
    let b2 :=
      if buf ≠ [] ∧ isSentenceEnd (buf.getLastD ' ') then
        { b1 with
          original := b1.original ++ tagLine speaker buf,
          original_sentence_buffer := [] }
      else { b1 with original_sentence_buffer := buf }
    { b2 with
      entries := b2.entries ++
        [⟨timestamp, speaker, text, "original".toList, "original".toList⟩] }

/-- Embedding of `BoxBuffers.add_to_doctor`. -/
def add_to_doctor (b : BoxBuffers) (speaker text timestamp language : Str) :
    BoxBuffers :=
  if text = [] ∨ speaker = [] then b
  else
    let b1 :=
      if some speaker ≠ b.doctor_current_speaker then
        let b0 :=
          if b.doctor_sentence_buffer ≠ [] ∧ optTruthy b.doctor_current_speaker then
            { b with
              doctor := b.doctor ++
                tagLine (b.doctor_current_speaker.getD []) b.doctor_sentence_buffer,
              doctor_sentence_buffer := [] }
          else b
        { b0 with doctor_current_speaker := some speaker }
      else b
    let buf := smart_join b1.doctor_sentence_buffer text
    let b2 :=
      if buf ≠ [] ∧ isSentenceEnd (buf.getLastD ' ') then
        { b1 with
          doctor := b1.doctor ++ tagLine speaker buf,
          doctor_sentence_buffer := [] }
      else { b1 with doctor_sentence_buffer := buf }
    { b2 with
      entries := b2.entries ++
        [⟨timestamp, speaker, text, language, "doctor".toList⟩] }

/-- Embedding of `BoxBuffers.add_to_patient`. -/
def add_to_patient (b : BoxBuffers) (speaker text timestamp language : Str) :
    BoxBuffers :=
  if text = [] ∨ speaker = [] then b
  else
    let b1 :=
      if some speaker ≠ b.patient_current_speaker then
        let b0 :=
          if b.patient_sentence_buffer ≠ [] ∧ optTruthy b.patient_current_speaker then
            { b with
              patient := b.patient ++
                tagLine (b.patient_current_speaker.getD []) b.patient_sentence_buffer,
              patient_sentence_buffer := [] }
          else b
        { b0 with patient_current_speaker := some speaker }
      else b
    let buf := smart_join b1.patient_sentence_buffer text
    let b2 :=
      if buf ≠ [] ∧ isSentenceEnd (buf.getLastD ' ') then
        { b1 with
          patient := b1.patient ++ tagLine speaker buf,
          patient_sentence_buffer := [] }
      else { b1 with patient_sentence_buffer := buf }
    { b2 with
      entries := b2.entries ++
        [⟨timestamp, speaker, text, language, "patient".toList⟩] }

/-- `BoxBuffers.to_dict`: the snapshot of the three display boxes. -/
def BoxBuffers.to_dict (b : BoxBuffers) : Str × Str × Str :=
  (b.original, b.doctor, b.patient)

/-- `BoxBuffers.reset`: every modelled field back to its initial value. -/
def BoxBuffers.reset (_ : BoxBuffers) : BoxBuffers :=
  initBoxBuffers

/-- One incoming token as `process_token` sees it after field extraction and
text cleanup: `text` is the cleaned text (the `<end>`/timestamp-artifact
removal is plain text normalization, applied upstream of everything this
file reasons about), `speaker` the extracted diarization hint
(`token.get("speaker") or token.get("speaker_id")`, `none` when absent),
`language` the extracted language (defaulted to `"unknown"` by the source),
and `timestamp` the extracted or arrival timestamp. -/
structure Token where
  text : Str
  speaker : Option Int
  language : Str
  is_final : Bool
  translated : Bool
  is_translation : Bool
  timestamp : Str
deriving DecidableEq, Repr

/-- Embedding of `LangChainRouter` from `langchain_router.py`. The
attributes `speaker_changed`, `last_detected_speaker_id`,
`speaker_id_counter` and `last_sentence_had_punctuation` are initialized by
the source but never read or meaningfully updated, so they are not
modelled; the dict `partial_buffer` is modelled as the insertion-ordered
association list `provisional_buffer`. -/
structure LangChainRouter where
  doctor_lang : Str
  patient_lang : Str
  boxes : BoxBuffers
  provisional_buffer : List (Str × Str)
  current_speaker : Option Str
  same_language : Bool
  speaker_registry : List (Int × Str)
  sentence_count : Nat
deriving DecidableEq, Repr

/-- `LangChainRouter.__init__(doctor_lang, patient_lang)`. -/
def mkRouter (doctor_lang patient_lang : Str) : LangChainRouter :=
  ⟨doctor_lang, patient_lang, initBoxBuffers, [], none,
   decide (doctor_lang = patient_lang), [], 0⟩

/-- Lookup in an insertion-ordered association list (Python dict `in` /
`[]`). -/
def registryLookup (reg : List (Int × Str)) (sid : Int) : Option Str :=
  match reg with
  | [] => none
  | (k, v) :: rest => if k = sid then some v else registryLookup rest sid

/-- Python dict assignment `d[k] = v`, keeping insertion order. -/
def dictInsert (d : List (Str × Str)) (k v : Str) : List (Str × Str) :=
  match d with
  | [] => [(k, v)]
  | (k1, v1) :: rest =>
    if k1 = k then (k, v) :: rest else (k1, v1) :: dictInsert rest k v

/-- Python `del d[k]` guarded by `if k in d` (removes the key if present). -/
def dictRemove (d : List (Str × Str)) (k : Str) : List (Str × Str) :=
  d.filter (fun p => p.1 ≠ k)

/-- The diarization tier of `_detect_speaker`: register an unseen
`speaker_id` (first ever seen becomes Doctor, second Patient, later ones a
generated `SpeakerN` label) and return the registered label. -/
def registerSpeaker (r : LangChainRouter) (sid : Int) :
    Str × LangChainRouter :=
  match registryLookup r.speaker_registry sid with
  | some lbl => (lbl, r)
  | none =>
    let lbl :=
      if r.speaker_registry.length = 0 then "Doctor".toList
      else if r.speaker_registry.length = 1 then "Patient".toList
      else "Speaker".toList ++ (toString sid).toList
    (lbl, { r with speaker_registry := r.speaker_registry ++ [(sid, lbl)] })

/-- The turn-based fallback tier of `_detect_speaker`: the first ever call
returns Doctor and initializes the alternation state; later calls return
the current speaker unchanged. -/
def turnFallback (r : LangChainRouter) : Str × LangChainRouter :=
  match r.current_speaker with
  | none =>
    ("Doctor".toList,
     { r with current_speaker := some "Doctor".toList, sentence_count := 1 })
  | some cur => (cur, r)

/-- The language tier of `_detect_speaker` (translation mode with a known
language), falling through to `turnFallback` when it does not decide. -/
def languageTier (r : LangChainRouter) (language : Str) :
    Str × LangChainRouter :=
  if r.same_language = false ∧ language ≠ [] ∧ language ≠ "unknown".toList then
    if language = r.doctor_lang then ("Doctor".toList, r)
    else if language = r.patient_lang then ("Patient".toList, r)
    else turnFallback r
  else turnFallback r

/-- Embedding of `LangChainRouter._detect_speaker(speaker_id, language)`;
returns the speaker label together with the updated router state. -/
def detect_speaker (r : LangChainRouter) (speaker_id : Option Int)
    (language : Str) : Str × LangChainRouter :=
  match speaker_id with
  | some sid => if sid ≠ -1 then registerSpeaker r sid else languageTier r language
  | none => languageTier r language

/-- Embedding of `LangChainRouter.check_speaker_change(text)` (its state
effect; the source also returns the current speaker, which no caller
uses). -/
def check_speaker_change (r : LangChainRouter) (text : Str) :
    LangChainRouter :=
  if text = [] then r
  else
    let has_ending_punct := isSentenceEnd ((rstrip text).getLastD ' ')
    if has_ending_punct ∧ optTruthy r.current_speaker then
      let next :=
        if r.current_speaker = some "Doctor".toList then "Patient".toList
        else "Doctor".toList
      { r with current_speaker := some next,
               sentence_count := r.sentence_count + 1 }
    else r

/-- Embedding of `LangChainRouter._route_to_boxes(text, speaker, language,
status, timestamp)`. -/
def route_to_boxes (r : LangChainRouter) (text speaker language status
    timestamp : Str) : LangChainRouter :=
  if r.same_language then
    if speaker = "Doctor".toList ∧ language = r.doctor_lang then
      { r with boxes := add_to_original r.boxes speaker text timestamp none }
    else if speaker = "Patient".toList ∧ language = r.patient_lang then
      { r with boxes := add_to_original r.boxes speaker text timestamp none }
    else r
  else
    let b1 := add_to_original r.boxes speaker text timestamp (some language)
    let b2 :=
      if language = r.doctor_lang ∨ status = "translation".toList then
        add_to_doctor b1 speaker text timestamp language
      else b1
    let b3 :=
      if language = r.patient_lang ∨ status = "translation".toList then
        add_to_patient b2 speaker text timestamp language
      else b2
    { r with boxes := b3 }

/-- Embedding of `LangChainRouter.process_token` (its state effect on the
router for a token whose cleaned text is `tok.text`; the formatted-token
return value is a pure projection of the same data). -/
def process_token (r : LangChainRouter) (tok : Token) : LangChainRouter :=
  if tok.text = [] then r
  else
    let det := detect_speaker r tok.speaker tok.language
    let label := det.1
    let r1 := det.2
    let r2 :=
      if some label ≠ r1.current_speaker then
        { r1 with current_speaker := some label }
      else r1
    let status :=
      if tok.translated || tok.is_translation then "translation".toList
      else "original".toList
    if tok.is_final then
      let r3 := route_to_boxes r2 tok.text label tok.language status tok.timestamp
      let r4 := check_speaker_change r3 tok.text
      { r4 with provisional_buffer := dictRemove r4.provisional_buffer label }
    else
      { r2 with provisional_buffer := dictInsert r2.provisional_buffer label tok.text }

/-- `LangChainRouter.get_boxes` (the snapshot of the three views). -/
def get_boxes (r : LangChainRouter) : Str × Str × Str :=
  r.boxes.to_dict

/-- `LangChainRouter.get_all_entries` (the export of raw entries). -/
def get_all_entries (r : LangChainRouter) : List ConversationEntry :=
  r.boxes.entries

/-- Embedding of `LangChainRouter.reset`: only `self.boxes.reset()` is
called (the source additionally assigns the otherwise-unused attribute
`token_buffer = []`); no other router attribute is touched. -/
def LangChainRouter.reset (r : LangChainRouter) : LangChainRouter :=
  { r with boxes := r.boxes.reset }

/-- Embedding of `LangChainRouter.set_languages`: assigns the two language
attributes and nothing else (in particular `same_language` is not
recomputed and no validation happens). -/
def set_languages (r : LangChainRouter) (doctor_lang patient_lang : Str) :
    LangChainRouter :=
  { r with doctor_lang := doctor_lang, patient_lang := patient_lang }

theorem process_token_first_question_flips :
    (process_token (mkRouter "en".toList "en".toList)
      ⟨"Hello?".toList, none, "en".toList, true, false, false, "t0".toList⟩).current_speaker
      = some "Patient".toList := by decide

/-- C9: for every string X whose last character belongs to one of the eight
Indic script blocks and every non-empty Y, `smart_join X Y` is the direct
concatenation `X ++ Y` with no inserted space. -/
theorem C9_indic_join (X Y : Str)
    (hx : is_indic_char (X.getLastD ' ') = true) (hy : Y ≠ []) :
    smart_join X Y = X ++ Y := by
  have hX : X ≠ [] := fun h => absurd (h ▸ hx) (by decide)
  have hx' : is_indic_char ((X.getLast?).getD ' ') = true := by
    rw [← List.getLastD_eq_getLast?]
    exact hx
  unfold smart_join
  rw [if_neg hX, if_neg hy]
  by_cases hsp : isSpaceChar ((Y.head?).getD ' ') = true
  · simp [List.headD_eq_head?_getD, hsp]
  · simp [List.headD_eq_head?_getD, List.getLastD_eq_getLast?, hsp, hx']

/-- Witness for C9 at the Telugu letter A and an ASCII continuation. -/
theorem C9_indic_join_witness :
    is_indic_char ("అ".toList.getLastD ' ') = true ∧ "a".toList ≠ ([] : Str) ∧
      smart_join "అ".toList "a".toList = "అ".toList ++ "a".toList :=
  ⟨by decide, by decide, C9_indic_join _ _ (by decide) (by decide)⟩

/-- An Original append with non-empty text and speaker logs exactly one raw
entry, whose language and status fields are the literal `"original"`. -/
theorem add_to_original_entries (b : BoxBuffers)
    (speaker text timestamp : Str) (language : Option Str)
    (hs : speaker ≠ []) (ht : text ≠ []) :
    (add_to_original b speaker text timestamp language).entries =
      b.entries ++
        [⟨timestamp, speaker, text, "original".toList, "original".toList⟩] := by
  unfold add_to_original
  rw [if_neg (fun h => h.elim ht hs)]
  split_ifs <;> simp [apply_ite]

/-- An Original append never touches the doctor or patient boxes. -/
theorem add_to_original_other_boxes (b : BoxBuffers)
    (speaker text timestamp : Str) (language : Option Str) :
    (add_to_original b speaker text timestamp language).doctor = b.doctor ∧
    (add_to_original b speaker text timestamp language).doctor_sentence_buffer
      = b.doctor_sentence_buffer ∧
    (add_to_original b speaker text timestamp language).doctor_current_speaker
      = b.doctor_current_speaker ∧
    (add_to_original b speaker text timestamp language).patient = b.patient ∧
    (add_to_original b speaker text timestamp language).patient_sentence_buffer
      = b.patient_sentence_buffer ∧
    (add_to_original b speaker text timestamp language).patient_current_speaker
      = b.patient_current_speaker := by
  unfold add_to_original
  split_ifs <;> simp [apply_ite]

/-- A doctor-box append never touches the original or patient boxes. -/
theorem add_to_doctor_other_boxes (b : BoxBuffers)
    (speaker text timestamp language : Str) :
    (add_to_doctor b speaker text timestamp language).original = b.original ∧
    (add_to_doctor b speaker text timestamp language).original_sentence_buffer
      = b.original_sentence_buffer ∧
    (add_to_doctor b speaker text timestamp language).original_current_speaker
      = b.original_current_speaker ∧
    (add_to_doctor b speaker text timestamp language).patient = b.patient ∧
    (add_to_doctor b speaker text timestamp language).patient_sentence_buffer
      = b.patient_sentence_buffer ∧
    (add_to_doctor b speaker text timestamp language).patient_current_speaker
      = b.patient_current_speaker := by
  unfold add_to_doctor
  split_ifs <;> simp [apply_ite]

/-- A patient-box append never touches the original or doctor boxes. -/
theorem add_to_patient_other_boxes (b : BoxBuffers)
    (speaker text timestamp language : Str) :
    (add_to_patient b speaker text timestamp language).original = b.original ∧
    (add_to_patient b speaker text timestamp language).original_sentence_buffer
      = b.original_sentence_buffer ∧
    (add_to_patient b speaker text timestamp language).original_current_speaker
      = b.original_current_speaker ∧
    (add_to_patient b speaker text timestamp language).doctor = b.doctor ∧
    (add_to_patient b speaker text timestamp language).doctor_sentence_buffer
      = b.doctor_sentence_buffer ∧
    (add_to_patient b speaker text timestamp language).doctor_current_speaker
      = b.doctor_current_speaker := by
  unfold add_to_patient
  split_ifs <;> simp [apply_ite]

/-- A doctor-box append only ever extends the entry log on the right. -/
theorem add_to_doctor_entries_ext (b : BoxBuffers)
    (speaker text timestamp language : Str) :
    ∃ tail, (add_to_doctor b speaker text timestamp language).entries =
      b.entries ++ tail := by
  by_cases h : text = [] ∨ speaker = []
  · exact ⟨[], by simp [add_to_doctor, h]⟩
  · refine ⟨[⟨timestamp, speaker, text, language, "doctor".toList⟩], ?_⟩
    unfold add_to_doctor
    rw [if_neg h]
    split_ifs <;> simp [apply_ite]

/-- A patient-box append only ever extends the entry log on the right. -/
theorem add_to_patient_entries_ext (b : BoxBuffers)
    (speaker text timestamp language : Str) :
    ∃ tail, (add_to_patient b speaker text timestamp language).entries =
      b.entries ++ tail := by
  by_cases h : text = [] ∨ speaker = []
  · exact ⟨[], by simp [add_to_patient, h]⟩
  · refine ⟨[⟨timestamp, speaker, text, language, "patient".toList⟩], ?_⟩
    unfold add_to_patient
    rw [if_neg h]
    split_ifs <;> simp [apply_ite]

/-- C10: an Original-view append records a raw entry whose `language` and
`translation_status` fields are both the literal string `"original"`,
regardless of the `language` argument the routing layer passed, so the
export log never reports the spoken language for Original-view entries. -/
theorem C10_original_entry_language (b : BoxBuffers)
    (speaker text timestamp : Str) (language : Option Str)
    (hs : speaker ≠ []) (ht : text ≠ []) :
    (add_to_original b speaker text timestamp language).entries =
      b.entries ++
        [⟨timestamp, speaker, text, "original".toList, "original".toList⟩] :=
  add_to_original_entries b speaker text timestamp language hs ht

/-- A key present in an association list is still bound to the same value
after appending further pairs on the right. -/
theorem registryLookup_append (reg l : List (Int × Str)) (k : Int) (v : Str)
    (h : registryLookup reg k = some v) :
    registryLookup (reg ++ l) k = some v := by
  induction reg with
  | nil => simp [registryLookup] at h
  | cons hd tl ih =>
    rcases hd with ⟨k1, v1⟩
    by_cases hk : k1 = k
    · simp [registryLookup, hk] at h ⊢
      exact h
    · simp [registryLookup, hk] at h ⊢
      exact ih h

/-- C4: the speaker registry maps the first hint ever seen to Doctor, the
second distinct hint to Patient, and later distinct hints to a generated
label; a hint that is already mapped always resolves to its registered
label with no state change, and no existing mapping is ever reassigned or
removed by a detection step. -/
theorem C4_registry_stability (r : LangChainRouter) (sid : Int)
    (language : Str) (hsid : sid ≠ -1) :
    (r.speaker_registry = [] →
      detect_speaker r (some sid) language =
        ("Doctor".toList,
         { r with speaker_registry := [(sid, "Doctor".toList)] })) ∧
    (∀ sid0 lbl0, r.speaker_registry = [(sid0, lbl0)] → sid0 ≠ sid →
      detect_speaker r (some sid) language =
        ("Patient".toList,
         { r with speaker_registry := [(sid0, lbl0), (sid, "Patient".toList)] })) ∧
    (2 ≤ r.speaker_registry.length →
      registryLookup r.speaker_registry sid = none →
      detect_speaker r (some sid) language =
        ("Speaker".toList ++ (toString sid).toList,
         { r with speaker_registry := r.speaker_registry ++
            [(sid, "Speaker".toList ++ (toString sid).toList)] })) ∧
    (∀ lbl, registryLookup r.speaker_registry sid = some lbl →
      detect_speaker r (some sid) language = (lbl, r)) ∧
    (∀ k v, registryLookup r.speaker_registry k = some v →
      registryLookup
        (detect_speaker r (some sid) language).2.speaker_registry k = some v) := by
  refine ⟨?_, ?_, ?_, ?_, ?_⟩
  · intro hreg
    simp [detect_speaker, hsid, registerSpeaker, hreg, registryLookup]
  · intro sid0 lbl0 hreg hne
    simp [detect_speaker, hsid, registerSpeaker, hreg, registryLookup, hne]
  · intro hlen hnone
    have h0 : r.speaker_registry.length ≠ 0 := by omega
    have h1 : r.speaker_registry.length ≠ 1 := by omega
    simp [detect_speaker, hsid, registerSpeaker, hnone, h0, h1]
  · intro lbl hl
    simp [detect_speaker, hsid, registerSpeaker, hl]
  · intro k v hkv
    cases hl : registryLookup r.speaker_registry sid with
    | some lbl =>
      simp [detect_speaker, hsid, registerSpeaker, hl]
      exact hkv
    | none =>
      simp [detect_speaker, hsid, registerSpeaker, hl]
      exact registryLookup_append _ _ _ _ hkv

/-- Witness for C4: on a fresh router the first diarization hint (7)
registers as Doctor. -/
theorem C4_registry_stability_witness :
    detect_speaker (mkRouter "en".toList "en".toList) (some 7) "en".toList =
      ("Doctor".toList,
       { mkRouter "en".toList "en".toList with
         speaker_registry := [((7 : Int), "Doctor".toList)] }) :=
  (C4_registry_stability _ 7 _ (by decide)).1 rfl

/-- The Original box's pending buffer at the moment `add_to_original`
merges the incoming text into it: the buffer the speaker-change step left
behind (reset to empty when the speaker changed while a non-empty buffer
was bound to a previous speaker, unchanged otherwise). -/
def originalBufferAtMerge (b : BoxBuffers) (speaker : Str) : Str :=
  if some speaker ≠ b.original_current_speaker ∧
      b.original_sentence_buffer ≠ [] ∧ optTruthy b.original_current_speaker
  then [] else b.original_sentence_buffer

/-- When the merged buffer ends in sentence-terminal punctuation,
`add_to_original` flushes it: the display text becomes the pre-merge
display followed by the tagged merged buffer, and the pending buffer is
reset to empty. -/
theorem add_to_original_flush (b : BoxBuffers) (speaker text timestamp : Str)
    (language : Option Str) (hs : speaker ≠ []) (ht : text ≠ [])
    (hend : isSentenceEnd
      ((smart_join (originalBufferAtMerge b speaker) text).getLastD ' ') = true) :
    (add_to_original b speaker text timestamp language).original =
      (if some speaker ≠ b.original_current_speaker ∧
          b.original_sentence_buffer ≠ [] ∧ optTruthy b.original_current_speaker
        then b.original ++
          tagLine (b.original_current_speaker.getD []) b.original_sentence_buffer
        else b.original) ++
        tagLine speaker (smart_join (originalBufferAtMerge b speaker) text) ∧
    (add_to_original b speaker text timestamp language).original_sentence_buffer
      = [] := by
  have hne : smart_join (originalBufferAtMerge b speaker) text ≠ [] :=
    fun h => absurd (h ▸ hend) (by decide)
  unfold originalBufferAtMerge at hend hne ⊢
  unfold add_to_original
  rw [if_neg (fun h => h.elim ht hs)]
  split_ifs at hend hne ⊢ <;> simp_all [apply_ite]

/-- The doctor box's pending buffer at the moment `add_to_doctor` merges
the incoming text into it. -/
def doctorBufferAtMerge (b : BoxBuffers) (speaker : Str) : Str :=
  if some speaker ≠ b.doctor_current_speaker ∧
      b.doctor_sentence_buffer ≠ [] ∧ optTruthy b.doctor_current_speaker
  then [] else b.doctor_sentence_buffer

/-- The patient box's pending buffer at the moment `add_to_patient` merges
the incoming text into it. -/
def patientBufferAtMerge (b : BoxBuffers) (speaker : Str) : Str :=
  if some speaker ≠ b.patient_current_speaker ∧
      b.patient_sentence_buffer ≠ [] ∧ optTruthy b.patient_current_speaker
  then [] else b.patient_sentence_buffer

/-- When the merged buffer ends in sentence-terminal punctuation,
`add_to_doctor` flushes it, mirroring `add_to_original_flush`. -/
theorem add_to_doctor_flush (b : BoxBuffers)
    (speaker text timestamp language : Str)
    (hs : speaker ≠ []) (ht : text ≠ [])
    (hend : isSentenceEnd
      ((smart_join (doctorBufferAtMerge b speaker) text).getLastD ' ') = true) :
    (add_to_doctor b speaker text timestamp language).doctor =
      (if some speaker ≠ b.doctor_current_speaker ∧
          b.doctor_sentence_buffer ≠ [] ∧ optTruthy b.doctor_current_speaker
        then b.doctor ++
          tagLine (b.doctor_current_speaker.getD []) b.doctor_sentence_buffer
        else b.doctor) ++
        tagLine speaker (smart_join (doctorBufferAtMerge b speaker) text) ∧
    (add_to_doctor b speaker text timestamp language).doctor_sentence_buffer
      = [] := by
  have hne : smart_join (doctorBufferAtMerge b speaker) text ≠ [] :=
    fun h => absurd (h ▸ hend) (by decide)
  unfold doctorBufferAtMerge at hend hne ⊢
  unfold add_to_doctor
  rw [if_neg (fun h => h.elim ht hs)]
  split_ifs at hend hne ⊢ <;> simp_all [apply_ite]

/-- When the merged buffer ends in sentence-terminal punctuation,
`add_to_patient` flushes it, mirroring `add_to_original_flush`. -/
theorem add_to_patient_flush (b : BoxBuffers)
    (speaker text timestamp language : Str)
    (hs : speaker ≠ []) (ht : text ≠ [])
    (hend : isSentenceEnd
      ((smart_join (patientBufferAtMerge b speaker) text).getLastD ' ') = true) :
    (add_to_patient b speaker text timestamp language).patient =
      (if some speaker ≠ b.patient_current_speaker ∧
          b.patient_sentence_buffer ≠ [] ∧ optTruthy b.patient_current_speaker
        then b.patient ++
          tagLine (b.patient_current_speaker.getD []) b.patient_sentence_buffer
        else b.patient) ++
        tagLine speaker (smart_join (patientBufferAtMerge b speaker) text) ∧
    (add_to_patient b speaker text timestamp language).patient_sentence_buffer
      = [] := by
  have hne : smart_join (patientBufferAtMerge b speaker) text ≠ [] :=
    fun h => absurd (h ▸ hend) (by decide)
  unfold patientBufferAtMerge at hend hne ⊢
  unfold add_to_patient
  rw [if_neg (fun h => h.elim ht hs)]
  split_ifs at hend hne ⊢ <;> simp_all [apply_ite]

/-- A concrete buffer state exercising the flush theorems: each of the
three views holds the pending buffer "Hello", bound to Doctor. -/
def demoBuffers : BoxBuffers :=
  ⟨[], [], [], "Hello".toList, "Hello".toList, "Hello".toList,
   some "Doctor".toList, some "Doctor".toList, some "Doctor".toList, []⟩

/-- C5: for every view (Original, doctor and patient boxes), after an
append whose merged pending buffer ends in `.`, `!` or `?`, the view's
finalized display text ends with the line `"[speaker]: "` followed by
exactly the merged buffer content, and the view's pending buffer is empty
afterwards. -/
theorem C5_sentence_flush (b : BoxBuffers) (speaker text timestamp : Str)
    (langO : Option Str) (language : Str)
    (hs : speaker ≠ []) (ht : text ≠ []) :
    (isSentenceEnd
        ((smart_join (originalBufferAtMerge b speaker) text).getLastD ' ')
        = true →
      (∃ pre, (add_to_original b speaker text timestamp langO).original =
          pre ++ tagLine speaker
            (smart_join (originalBufferAtMerge b speaker) text)) ∧
      (add_to_original b speaker text timestamp langO).original_sentence_buffer
        = []) ∧
    (isSentenceEnd
        ((smart_join (doctorBufferAtMerge b speaker) text).getLastD ' ')
        = true →
      (∃ pre, (add_to_doctor b speaker text timestamp language).doctor =
          pre ++ tagLine speaker
            (smart_join (doctorBufferAtMerge b speaker) text)) ∧
      (add_to_doctor b speaker text timestamp language).doctor_sentence_buffer
        = []) ∧
    (isSentenceEnd
        ((smart_join (patientBufferAtMerge b speaker) text).getLastD ' ')
        = true →
      (∃ pre, (add_to_patient b speaker text timestamp language).patient =
          pre ++ tagLine speaker
            (smart_join (patientBufferAtMerge b speaker) text)) ∧
      (add_to_patient b speaker text timestamp language).patient_sentence_buffer
        = []) := by
  refine ⟨fun hend => ?_, fun hend => ?_, fun hend => ?_⟩
  · exact ⟨⟨_, (add_to_original_flush b speaker text timestamp langO hs ht hend).1⟩,
      (add_to_original_flush b speaker text timestamp langO hs ht hend).2⟩
  · exact ⟨⟨_, (add_to_doctor_flush b speaker text timestamp language hs ht hend).1⟩,
      (add_to_doctor_flush b speaker text timestamp language hs ht hend).2⟩
  · exact ⟨⟨_, (add_to_patient_flush b speaker text timestamp language hs ht hend).1⟩,
      (add_to_patient_flush b speaker text timestamp language hs ht hend).2⟩

/-- Witness for C5: merging a sentence-closing fragment into a Doctor-bound
pending buffer flushes the tagged sentence in each of the three views. -/
theorem C5_sentence_flush_witness :
    (add_to_original demoBuffers "Doctor".toList " world.".toList
        "t0".toList none).original_sentence_buffer = [] ∧
    (add_to_doctor demoBuffers "Doctor".toList " world.".toList
        "t0".toList "en".toList).doctor_sentence_buffer = [] ∧
    (add_to_patient demoBuffers "Doctor".toList " world.".toList
        "t0".toList "en".toList).patient_sentence_buffer = [] :=
  ⟨((C5_sentence_flush demoBuffers "Doctor".toList " world.".toList
      "t0".toList none "en".toList (by decide) (by decide)).1 (by decide)).2,
   ((C5_sentence_flush demoBuffers "Doctor".toList " world.".toList
      "t0".toList none "en".toList (by decide) (by decide)).2.1 (by decide)).2,
   ((C5_sentence_flush demoBuffers "Doctor".toList " world.".toList
      "t0".toList none "en".toList (by decide) (by decide)).2.2 (by decide)).2⟩

/-- C6: for every view (Original, doctor and patient boxes), an append
under a speaker different from the view's current speaker, with a
non-empty pending buffer, first flushes that buffer as a line tagged with
the previous speaker and then starts a new pending buffer containing the
incoming text, bound to the new speaker (stated for incoming text that
does not itself close the sentence). -/
theorem C6_speaker_change_flush (b : BoxBuffers)
    (speaker text timestamp p : Str) (langO : Option Str) (language : Str)
    (hs : speaker ≠ []) (ht : text ≠ [])
    (hp : p ≠ []) (hdiff : speaker ≠ p)
    (hnoend : isSentenceEnd (text.getLastD ' ') = false) :
    (b.original_current_speaker = some p → b.original_sentence_buffer ≠ [] →
      (add_to_original b speaker text timestamp langO).original =
        b.original ++ tagLine p b.original_sentence_buffer ∧
      (add_to_original b speaker text timestamp
          langO).original_current_speaker = some speaker ∧
      (add_to_original b speaker text timestamp
          langO).original_sentence_buffer = text) ∧
    (b.doctor_current_speaker = some p → b.doctor_sentence_buffer ≠ [] →
      (add_to_doctor b speaker text timestamp language).doctor =
        b.doctor ++ tagLine p b.doctor_sentence_buffer ∧
      (add_to_doctor b speaker text timestamp
          language).doctor_current_speaker = some speaker ∧
      (add_to_doctor b speaker text timestamp
          language).doctor_sentence_buffer = text) ∧
    (b.patient_current_speaker = some p → b.patient_sentence_buffer ≠ [] →
      (add_to_patient b speaker text timestamp language).patient =
        b.patient ++ tagLine p b.patient_sentence_buffer ∧
      (add_to_patient b speaker text timestamp
          language).patient_current_speaker = some speaker ∧
      (add_to_patient b speaker text timestamp
          language).patient_sentence_buffer = text) := by
  have hsj : smart_join [] text = text := by
    unfold smart_join
    rw [if_pos rfl]
  refine ⟨fun hprev hpend => ?_, fun hprev hpend => ?_, fun hprev hpend => ?_⟩
  · unfold add_to_original
    rw [if_neg (fun h => h.elim ht hs)]
    split_ifs <;> simp_all [hsj, optTruthy, apply_ite]
  · unfold add_to_doctor
    rw [if_neg (fun h => h.elim ht hs)]
    split_ifs <;> simp_all [hsj, optTruthy, apply_ite]
  · unfold add_to_patient
    rw [if_neg (fun h => h.elim ht hs)]
    split_ifs <;> simp_all [hsj, optTruthy, apply_ite]

/-- Witness for C6: Patient arrives while Doctor holds the pending buffer
`"Hello"` in each view; every view flushes the buffer under the Doctor tag
and starts a fresh Patient-bound buffer with the new text. -/
theorem C6_speaker_change_flush_witness :
    ((add_to_original demoBuffers "Patient".toList "Fine".toList "t1".toList
        none).original =
      demoBuffers.original ++
        tagLine "Doctor".toList demoBuffers.original_sentence_buffer ∧
     (add_to_original demoBuffers "Patient".toList "Fine".toList "t1".toList
        none).original_current_speaker = some "Patient".toList ∧
     (add_to_original demoBuffers "Patient".toList "Fine".toList "t1".toList
        none).original_sentence_buffer = "Fine".toList) ∧
    ((add_to_doctor demoBuffers "Patient".toList "Fine".toList "t1".toList
        "en".toList).doctor =
      demoBuffers.doctor ++
        tagLine "Doctor".toList demoBuffers.doctor_sentence_buffer ∧
     (add_to_doctor demoBuffers "Patient".toList "Fine".toList "t1".toList
        "en".toList).doctor_current_speaker = some "Patient".toList ∧
     (add_to_doctor demoBuffers "Patient".toList "Fine".toList "t1".toList
        "en".toList).doctor_sentence_buffer = "Fine".toList) ∧
    ((add_to_patient demoBuffers "Patient".toList "Fine".toList "t1".toList
        "en".toList).patient =
      demoBuffers.patient ++
        tagLine "Doctor".toList demoBuffers.patient_sentence_buffer ∧
     (add_to_patient demoBuffers "Patient".toList "Fine".toList "t1".toList
        "en".toList).patient_current_speaker = some "Patient".toList ∧
     (add_to_patient demoBuffers "Patient".toList "Fine".toList "t1".toList
        "en".toList).patient_sentence_buffer = "Fine".toList) :=
  ⟨(C6_speaker_change_flush demoBuffers "Patient".toList "Fine".toList
      "t1".toList "Doctor".toList none "en".toList (by decide) (by decide)
      (by decide) (by decide) (by decide)).1 rfl (by decide),
   (C6_speaker_change_flush demoBuffers "Patient".toList "Fine".toList
      "t1".toList "Doctor".toList none "en".toList (by decide) (by decide)
      (by decide) (by decide) (by decide)).2.1 rfl (by decide),
   (C6_speaker_change_flush demoBuffers "Patient".toList "Fine".toList
      "t1".toList "Doctor".toList none "en".toList (by decide) (by decide)
      (by decide) (by decide) (by decide)).2.2 rfl (by decide)⟩

/-- Guarded doctor-box append (the shape used by the translation branch of
`_route_to_boxes`) never disturbs the Original box and only extends the
entry log. -/
theorem ite_doctor_original (c : Prop) [Decidable c] (b : BoxBuffers)
    (s t ts l : Str) :
    (if c then add_to_doctor b s t ts l else b).original = b.original ∧
    (if c then add_to_doctor b s t ts l else b).original_sentence_buffer
      = b.original_sentence_buffer ∧
    ∃ tail, (if c then add_to_doctor b s t ts l else b).entries
      = b.entries ++ tail := by
  split_ifs with h
  · exact ⟨(add_to_doctor_other_boxes b s t ts l).1,
      (add_to_doctor_other_boxes b s t ts l).2.1,
      add_to_doctor_entries_ext b s t ts l⟩
  · exact ⟨rfl, rfl, ⟨[], by simp⟩⟩

/-- Guarded patient-box append never disturbs the Original box and only
extends the entry log. -/
theorem ite_patient_original (c : Prop) [Decidable c] (b : BoxBuffers)
    (s t ts l : Str) :
    (if c then add_to_patient b s t ts l else b).original = b.original ∧
    (if c then add_to_patient b s t ts l else b).original_sentence_buffer
      = b.original_sentence_buffer ∧
    ∃ tail, (if c then add_to_patient b s t ts l else b).entries
      = b.entries ++ tail := by
  split_ifs with h
  · exact ⟨(add_to_patient_other_boxes b s t ts l).1,
      (add_to_patient_other_boxes b s t ts l).2.1,
      add_to_patient_entries_ext b s t ts l⟩
  · exact ⟨rfl, rfl, ⟨[], by simp⟩⟩

/-- C1 counterexample: in same-language mode a token whose language equals
the configured primary language and whose resolved speaker is Doctor — the
case the claim says is forwarded to PrimaryView — leaves the PrimaryView
(doctor box) completely untouched and produces no doctor-view entry: the
same-language branch of `_route_to_boxes` never forwards anything to
PrimaryView or SecondaryView. -/
theorem C1_counterexample :
    "en".toList = (mkRouter "en".toList "en".toList).doctor_lang ∧
    (mkRouter "en".toList "en".toList).same_language = true ∧
    (route_to_boxes (mkRouter "en".toList "en".toList) "Hello.".toList
        "Doctor".toList "en".toList "original".toList "t0".toList).boxes.doctor
      = (mkRouter "en".toList "en".toList).boxes.doctor ∧
    (route_to_boxes (mkRouter "en".toList "en".toList) "Hello.".toList
        "Doctor".toList "en".toList "original".toList
        "t0".toList).boxes.doctor_sentence_buffer = [] ∧
    (∀ e ∈ (route_to_boxes (mkRouter "en".toList "en".toList) "Hello.".toList
        "Doctor".toList "en".toList "original".toList "t0".toList).boxes.entries,
      e.translation_status = "original".toList) := by decide

/-- C1 amended: in same-language mode the router never forwards any token
to PrimaryView or SecondaryView; the token is forwarded to the Original
view exactly when (speaker, language) is (Doctor, primary) or (Patient,
secondary), and otherwise the router state is unchanged (the token is
dropped from every view). -/
theorem C1_same_language_routing (r : LangChainRouter)
    (text speaker language status timestamp : Str)
    (hm : r.same_language = true) (ht : text ≠ []) (hs : speaker ≠ []) :
    (route_to_boxes r text speaker language status timestamp).boxes.doctor
      = r.boxes.doctor ∧
    (route_to_boxes r text speaker language status
        timestamp).boxes.doctor_sentence_buffer
      = r.boxes.doctor_sentence_buffer ∧
    (route_to_boxes r text speaker language status timestamp).boxes.patient
      = r.boxes.patient ∧
    (route_to_boxes r text speaker language status
        timestamp).boxes.patient_sentence_buffer
      = r.boxes.patient_sentence_buffer ∧
    (∀ e ∈ (route_to_boxes r text speaker language status
        timestamp).boxes.entries,
      e ∈ r.boxes.entries ∨ e.translation_status = "original".toList) ∧
    ((speaker = "Doctor".toList ∧ language = r.doctor_lang) ∨
     (speaker = "Patient".toList ∧ language = r.patient_lang) →
      (route_to_boxes r text speaker language status timestamp).boxes.entries =
        r.boxes.entries ++
          [⟨timestamp, speaker, text, "original".toList, "original".toList⟩]) ∧
    (¬ ((speaker = "Doctor".toList ∧ language = r.doctor_lang) ∨
        (speaker = "Patient".toList ∧ language = r.patient_lang)) →
      route_to_boxes r text speaker language status timestamp = r) := by
  unfold route_to_boxes
  rw [if_pos hm]
  by_cases h1 : speaker = "Doctor".toList ∧ language = r.doctor_lang
  · rw [if_pos h1]
    have hob := add_to_original_other_boxes r.boxes speaker text timestamp none
    have hen := add_to_original_entries r.boxes speaker text timestamp none hs ht
    refine ⟨hob.1, hob.2.1, hob.2.2.2.1, hob.2.2.2.2.1, ?_, fun _ => hen, ?_⟩
    · intro e he
      have he1 : e ∈ (add_to_original r.boxes speaker text timestamp none).entries :=
        he
      rw [hen] at he1
      rcases List.mem_append.mp he1 with h | h
      · exact Or.inl h
      · have he2 := List.mem_singleton.mp h
        subst he2
        exact Or.inr rfl
    · intro hcon
      exact absurd (Or.inl h1) hcon
  · by_cases h2 : speaker = "Patient".toList ∧ language = r.patient_lang
    · rw [if_neg h1, if_pos h2]
      have hob := add_to_original_other_boxes r.boxes speaker text timestamp none
      have hen := add_to_original_entries r.boxes speaker text timestamp none hs ht
      refine ⟨hob.1, hob.2.1, hob.2.2.2.1, hob.2.2.2.2.1, ?_, fun _ => hen, ?_⟩
      · intro e he
        have he1 : e ∈ (add_to_original r.boxes speaker text timestamp none).entries :=
          he
        rw [hen] at he1
        rcases List.mem_append.mp he1 with h | h
        · exact Or.inl h
        · have he2 := List.mem_singleton.mp h
          subst he2
          exact Or.inr rfl
      · intro hcon
        exact absurd (Or.inr h2) hcon
    · rw [if_neg h1, if_neg h2]
      exact ⟨rfl, rfl, rfl, rfl, fun e he => Or.inl he,
        fun hcon => absurd hcon (not_or.mpr ⟨h1, h2⟩), fun _ => rfl⟩

/-- Witness for C1 (amended): a matching same-language token is forwarded
to the Original view. -/
theorem C1_same_language_routing_witness :
    (route_to_boxes (mkRouter "en".toList "en".toList) "Hi.".toList
        "Doctor".toList "en".toList "original".toList "t0".toList).boxes.entries =
      (mkRouter "en".toList "en".toList).boxes.entries ++
        [⟨"t0".toList, "Doctor".toList, "Hi.".toList, "original".toList,
          "original".toList⟩] :=
  (C1_same_language_routing _ _ _ _ _ _ (by decide) (by decide)
      (by decide)).2.2.2.2.2.1 (Or.inl ⟨rfl, rfl⟩)

/-- C2 counterexample: in same-language mode (en/en) a finalized token
detected as Telugu is dropped entirely — no raw entry is appended and
nothing is merged into the Original view's pending buffer — contradicting
"always forward to the Original view". -/
theorem C2_counterexample :
    (process_token (mkRouter "en".toList "en".toList)
        ⟨"Hi".toList, none, "te".toList, true, false, false, "t0".toList⟩).boxes.entries
      = [] ∧
    (process_token (mkRouter "en".toList "en".toList)
        ⟨"Hi".toList, none, "te".toList, true, false, false,
         "t0".toList⟩).boxes.original_sentence_buffer = [] ∧
    smart_join [] "Hi".toList ≠ [] := by decide

/-- C2 amended: in translation mode every finalized token is forwarded to
the Original view (its text is merged by `add_to_original` and its raw
`"original"` entry appended); in same-language mode a token whose
(speaker, language) pair matches neither configured role is dropped from
every view, including the Original one. -/
theorem C2_original_forwarding (r : LangChainRouter)
    (text speaker language status timestamp : Str)
    (ht : text ≠ []) (hs : speaker ≠ []) :
    (r.same_language = false →
      (route_to_boxes r text speaker language status timestamp).boxes.original =
        (add_to_original r.boxes speaker text timestamp (some language)).original ∧
      (route_to_boxes r text speaker language status
          timestamp).boxes.original_sentence_buffer =
        (add_to_original r.boxes speaker text timestamp
          (some language)).original_sentence_buffer ∧
      ∃ tail, (route_to_boxes r text speaker language status
          timestamp).boxes.entries =
        r.boxes.entries ++
          ⟨timestamp, speaker, text, "original".toList, "original".toList⟩ :: tail) ∧
    (r.same_language = true →
      ¬ ((speaker = "Doctor".toList ∧ language = r.doctor_lang) ∨
         (speaker = "Patient".toList ∧ language = r.patient_lang)) →
      route_to_boxes r text speaker language status timestamp = r) := by
  constructor
  · intro hmf
    unfold route_to_boxes
    rw [if_neg (by simp [hmf] : ¬ (r.same_language = true))]
    have H2 := ite_doctor_original
      (language = r.doctor_lang ∨ status = "translation".toList)
      (add_to_original r.boxes speaker text timestamp (some language))
      speaker text timestamp language
    have H3 := ite_patient_original
      (language = r.patient_lang ∨ status = "translation".toList)
      (if language = r.doctor_lang ∨ status = "translation".toList then
        add_to_doctor (add_to_original r.boxes speaker text timestamp
          (some language)) speaker text timestamp language
       else add_to_original r.boxes speaker text timestamp (some language))
      speaker text timestamp language
    have H1 := add_to_original_entries r.boxes speaker text timestamp
      (some language) hs ht
    obtain ⟨t2, ht2⟩ := H2.2.2
    obtain ⟨t3, ht3⟩ := H3.2.2
    refine ⟨H3.1.trans H2.1, H3.2.1.trans H2.2.1, t2 ++ t3, ?_⟩
    exact ht3.trans (by rw [ht2, H1]; simp)
  · intro hm hcon
    unfold route_to_boxes
    rw [if_pos hm]
    rcases not_or.mp hcon with ⟨h1, h2⟩
    rw [if_neg h1, if_neg h2]

/-- Witness for C2 (amended): in translation mode (en/te) a finalized
English Doctor token is forwarded to the Original view. -/
theorem C2_original_forwarding_witness :
    ∃ tail, (route_to_boxes (mkRouter "en".toList "te".toList) "Hello.".toList
        "Doctor".toList "en".toList "original".toList "t0".toList).boxes.entries =
      (mkRouter "en".toList "te".toList).boxes.entries ++
        ⟨"t0".toList, "Doctor".toList, "Hello.".toList, "original".toList,
          "original".toList⟩ :: tail :=
  ((C2_original_forwarding _ _ _ _ _ _ (by decide) (by decide)).1
    (by decide)).2.2

/-- C3 counterexample: the core raises nothing at configure time. The
embedding of `set_languages` is a total function because the source method
contains no raise; called with two equal languages on a translation-mode
router it returns normally with both languages updated (and does not even
recompute the mode flag), where the claim requires a synchronous
`ConfigurationError` — no such error class exists anywhere in the code. -/
theorem C3_counterexample :
    (mkRouter "en".toList "te".toList).same_language = false ∧
    set_languages (mkRouter "en".toList "te".toList) "fr".toList "fr".toList =
      { mkRouter "en".toList "te".toList with
        doctor_lang := "fr".toList, patient_lang := "fr".toList } := by decide

/-- C3 amended: configuring never fails — `set_languages` unconditionally
updates the language pair, leaving the mode flag and all buffered state
untouched, and constructing the router with two equal languages succeeds
and selects same-language mode. -/
theorem C3_configure_total (r : LangChainRouter) (dl pl : Str) :
    (set_languages r dl pl).doctor_lang = dl ∧
    (set_languages r dl pl).patient_lang = pl ∧
    (set_languages r dl pl).same_language = r.same_language ∧
    (set_languages r dl pl).boxes = r.boxes ∧
    (mkRouter dl dl).same_language = true := by
  refine ⟨rfl, rfl, rfl, rfl, ?_⟩
  simp [mkRouter]

/-- Routing a token to the boxes never changes the active-speaker state. -/
theorem route_to_boxes_current_speaker (r : LangChainRouter)
    (text speaker language status timestamp : Str) :
    (route_to_boxes r text speaker language status timestamp).current_speaker
      = r.current_speaker := by
  unfold route_to_boxes
  split_ifs <;> rfl

/-- In same-language mode an unhinted token resolves through the turn-based
fallback: the first ever call returns Doctor and initializes the
alternation state, later calls return the currently active speaker
unchanged. -/
theorem detect_speaker_fallback (r : LangChainRouter) (language : Str)
    (hm : r.same_language = true) :
    detect_speaker r none language =
      match r.current_speaker with
      | none => ("Doctor".toList,
          { r with current_speaker := some "Doctor".toList, sentence_count := 1 })
      | some cur => (cur, r) := by
  cases hc : r.current_speaker <;>
    simp [detect_speaker, languageTier, turnFallback, hm, hc]

/-- The active speaker after a finalized unhinted token in same-language
mode: flipped at a sentence boundary, kept otherwise. -/
theorem process_final_nohint_current (r : LangChainRouter) (tok : Token)
    (hm : r.same_language = true) (hfin : tok.is_final = true)
    (hhint : tok.speaker = none) (htext : tok.text ≠ []) (cur : Str)
    (hcur : r.current_speaker = some cur ∨
      (r.current_speaker = none ∧ cur = "Doctor".toList)) (hc : cur ≠ []) :
    (process_token r tok).current_speaker =
      if isSentenceEnd ((rstrip tok.text).getLastD ' ') = true then
        some (if cur = "Doctor".toList then "Patient".toList
              else "Doctor".toList)
      else some cur := by
  unfold process_token
  rw [if_neg htext, hhint, hfin]
  rcases hcur with hcur | ⟨hcur, hcurD⟩
  · have hdet := detect_speaker_fallback r tok.language hm
    rw [hcur] at hdet
    simp only [hdet]
    simp [hcur, route_to_boxes_current_speaker, check_speaker_change,
      optTruthy, htext, hc]
    split_ifs <;>
      first
        | rfl
        | rw [route_to_boxes_current_speaker, hcur]
  · subst hcurD
    have hdet := detect_speaker_fallback r tok.language hm
    rw [hcur] at hdet
    simp only [hdet]
    simp [route_to_boxes_current_speaker, check_speaker_change,
      optTruthy, htext]
    split_ifs <;>
      first
        | rfl
        | rw [route_to_boxes_current_speaker]

/-- C7: in same-language mode with no diarization hint, the first final
token resolves to Doctor; after a final token whose (right-stripped) text
ends in `.`, `!` or `?` the active role flips so the next unhinted token
resolves to Patient; without such punctuation the active role is kept, and
unhinted tokens always resolve to the currently active role. -/
theorem C7_turn_alternation (r : LangChainRouter) (tok : Token)
    (language : Str) (hm : r.same_language = true)
    (hfin : tok.is_final = true) (hhint : tok.speaker = none)
    (htext : tok.text ≠ []) :
    (r.current_speaker = none →
      (detect_speaker r none language).1 = "Doctor".toList) ∧
    (∀ cur, r.current_speaker = some cur →
      (detect_speaker r none language).1 = cur) ∧
    ((r.current_speaker = none ∨ r.current_speaker = some "Doctor".toList) →
      isSentenceEnd ((rstrip tok.text).getLastD ' ') = true →
      (process_token r tok).current_speaker = some "Patient".toList) ∧
    (r.current_speaker = some "Doctor".toList →
      isSentenceEnd ((rstrip tok.text).getLastD ' ') = false →
      (process_token r tok).current_speaker = some "Doctor".toList) := by
  refine ⟨?_, ?_, ?_, ?_⟩
  · intro hcur
    rw [detect_speaker_fallback r language hm, hcur]
  · intro cur hcur
    rw [detect_speaker_fallback r language hm, hcur]
  · intro hcur hend
    have hc : ("Doctor".toList : Str) ≠ [] := by decide
    have hstep := process_final_nohint_current r tok hm hfin hhint htext
      "Doctor".toList
      (hcur.elim (fun h => Or.inr ⟨h, rfl⟩) (fun h => Or.inl h)) hc
    rw [hstep, if_pos hend, if_pos rfl]
  · intro hcur hend
    have hc : ("Doctor".toList : Str) ≠ [] := by decide
    have hstep := process_final_nohint_current r tok hm hfin hhint htext
      "Doctor".toList (Or.inl hcur) hc
    rw [hstep, if_neg (by rw [hend]; decide)]

/-- Witness for C7: the first unhinted final token "Hello?" resolves the
session to Doctor and, ending in `?`, flips the active role to Patient. -/
theorem C7_turn_alternation_witness :
    (process_token (mkRouter "en".toList "en".toList)
        ⟨"Hello?".toList, none, "en".toList, true, false, false,
         "t0".toList⟩).current_speaker = some "Patient".toList :=
  (C7_turn_alternation _ _ "en".toList (by decide) rfl rfl
    (by decide)).2.2.1 (Or.inl rfl) (by decide)

/-- C8 counterexample: `reset()` does not restore fresh-session token
processing. After one same-language session token ("Hi?", resolved to
Doctor, alternation flipped to Patient) and a reset, the next unhinted
token resolves to Patient, whereas in a fresh session it resolves to
Doctor: the speaker-resolution state survives the reset. -/
theorem C8_counterexample :
    (detect_speaker
        (LangChainRouter.reset
          (process_token (mkRouter "en".toList "en".toList)
            ⟨"Hi?".toList, none, "en".toList, true, false, false, "t".toList⟩))
        none "en".toList).1 = "Patient".toList ∧
    (detect_speaker (mkRouter "en".toList "en".toList) none "en".toList).1 =
      "Doctor".toList := by decide

/-- C8 amended: `reset()` clears the three views and the entry log — the
snapshot is empty and the export is the empty sequence — but leaves every
speaker-resolution and configuration attribute (current speaker, speaker
registry, sentence counter, partial-token buffer, languages, mode flag)
untouched, so subsequent tokens are not processed as in a fresh session. -/
theorem C8_reset_views_only (r : LangChainRouter) :
    get_boxes (LangChainRouter.reset r) = ([], [], []) ∧
    get_all_entries (LangChainRouter.reset r) = [] ∧
    (LangChainRouter.reset r).current_speaker = r.current_speaker ∧
    (LangChainRouter.reset r).speaker_registry = r.speaker_registry ∧
    (LangChainRouter.reset r).sentence_count = r.sentence_count ∧
    (LangChainRouter.reset r).provisional_buffer = r.provisional_buffer ∧
    (LangChainRouter.reset r).doctor_lang = r.doctor_lang ∧
    (LangChainRouter.reset r).patient_lang = r.patient_lang ∧
    (LangChainRouter.reset r).same_language = r.same_language :=
  ⟨rfl, rfl, rfl, rfl, rfl, rfl, rfl, rfl, rfl⟩

/-- Witness for C10: a concrete Original append with detected language
`"te"` is logged with language `"original"`. -/
theorem C10_original_entry_language_witness :
    (add_to_original initBoxBuffers "Doctor".toList "Hi".toList "t0".toList
        (some "te".toList)).entries =
      initBoxBuffers.entries ++
        [⟨"t0".toList, "Doctor".toList, "Hi".toList, "original".toList,
          "original".toList⟩] :=
  C10_original_entry_language _ _ _ _ _ (by decide) (by decide)


